import Mathlib

/-!
Verification development for the SwingSet kernel's vat-loader
(`makeVatLoader` in kernel/vat-loader/vat-loader.js) and the
transcript-replay contract of the kernel.

JavaScript option bags and source descriptors are embedded as association
lists of (key, value) pairs with JS spread semantics (later entries
override earlier ones); JS values relevant to the loader are embedded as
`JsValue` with JS truthiness and `typeof`.
-/

set_option autoImplicit false

namespace SwingSet

/-- The JS values that flow through the vat loader: `undefined`, `null`,
booleans, numbers, strings, and opaque object references (bundles, setup
functions, console sinks) identified by a tag. -/
inductive JsValue where
  | undefined
  | null
  | bool (b : Bool)
  | num (n : Int)
  | str (s : String)
  | obj (tag : Nat)
  deriving DecidableEq, Repr

/-- JS truthiness: `undefined`, `null`, `false`, `0`, and `""` are falsy;
every object is truthy. -/
def truthy : JsValue → Bool
  | .undefined => false
  | .null => false
  | .bool b => b
  | .num n => n != 0
  | .str s => s != ""
  | .obj _ => true

/-- JS `typeof`; note `typeof null` is `"object"`. -/
def typeofJs : JsValue → String
  | .undefined => "undefined"
  | .null => "object"
  | .bool _ => "boolean"
  | .num _ => "number"
  | .str _ => "string"
  | .obj _ => "object"

/-- JS loose comparison `v != null`: false exactly for `undefined` and
`null`. -/
def neqNull : JsValue → Bool
  | .undefined => false
  | .null => false
  | _ => true

/-- A JS object (options bag, source descriptor, managerOptions literal):
an association list where a later entry for the same key overrides an
earlier one, so `\x7b...a, k: v, ...b\x7d` is `a ++ [(k, v)] ++ b`. -/
abbrev JsObj : Type := List (String × JsValue)

namespace JsObj

/-- JS `k in o` / `Object.keys(o).includes(k)`. -/
def hasKey (o : JsObj) (k : String) : Bool :=
  o.any (fun kv => kv.1 == k)

/-- JS property read `o[k]`: the last binding for `k` wins (spread
semantics); `undefined` when absent. -/
def getKey (o : JsObj) (k : String) : JsValue :=
  o.foldl (fun acc kv => if kv.1 == k then kv.2 else acc) .undefined

/-- JS destructuring with a default, `const \x7b k = d \x7d = o`: the
default applies exactly when the property is `undefined`. -/
def getD (o : JsObj) (k : String) (d : JsValue) : JsValue :=
  match getKey o k with
  | .undefined => d
  | v => v

end JsObj

/-- The error classification of the loader's failure sites (the spec's
error taxonomy §7): `invalidSource` for the `'broken source'` assertion,
`unknownBundle` for a keeper lookup that returned nothing (carrying the
unresolved name/ID), `notABundle` for the `assert.typeof(..., 'object')`
guard, `invalidOption` for an option key outside the allow-list, and
`precondition` for a missing `vatAdminRootKref`. -/
inductive VatError where
  | invalidSource
  | unknownBundle (ref : JsValue)
  | notABundle
  | invalidOption (key : String)
  | precondition
  deriving DecidableEq, Repr

/-- Result of a loader operation: either a value or a raised `VatError`. -/
inductive VRes (α : Type) where
  | ok (value : α)
  | err (e : VatError)
  deriving DecidableEq, Repr

/-- The keeper collaborator consulted during source resolution:
`getNamedBundle(name)` and `getBundle(bundleID)` return the bundle or a
falsy absence value. -/
structure KernelKeeper where
  getNamedBundle : JsValue → JsValue
  getBundle : JsValue → JsValue

/-- A query issued to the keeper, recorded in issue order. -/
inductive KeeperQuery where
  | namedBundle (name : JsValue)
  | bundleById (bundleID : JsValue)
  deriving DecidableEq, Repr

/-- The `sourceDesc` chosen during resolution (`'from source bundle'`,
`` `from bundleName: ...` ``, `` `from bundleID: ...` ``). -/
inductive SourceDesc where
  | fromBundle
  | fromName (name : JsValue)
  | fromID (bundleID : JsValue)
  deriving DecidableEq, Repr

/-- The capabilities closed over by `makeVatLoader`. The slogger is purely
observational (spec §6) and the translators / syscall handler are passed
opaquely to the manager factory, so neither appears here; the manager
factory itself is modelled as returning the `managerOptions` it was handed,
which is the loader-observable part of the manager. -/
structure VatLoaderStuff where
  overrideVatManagerOptions : JsObj
  kernelKeeper : KernelKeeper
  vatAdminRootKref : JsValue
  makeSourcedConsole : String → JsValue

/-- Outcome of the resolution phase of `create`: the resolved bundle and
`sourceDesc` (or the raised error), together with the keeper queries made. -/
structure ResolveOutcome where
  result : VRes (JsValue × SourceDesc)
  queries : List KeeperQuery
  deriving DecidableEq, Repr

/-- The source-resolution phase of `create` (vat-loader.js lines 286-307):
the `'broken source'` assertion followed by the `if ('bundle' in source) /
else if ('bundleName' in source) / else if ('bundleID' in source)` chain.
The chain's final `assert.fail` branch is unreachable once the first
assertion passed, so both failure sites collapse to `invalidSource`. -/
def resolveSource (kk : KernelKeeper) (source : JsObj) : ResolveOutcome :=
  if source.hasKey "bundle" then
    ⟨.ok (source.getKey "bundle", .fromBundle), []⟩
  else if source.hasKey "bundleName" then
    let nm := source.getKey "bundleName"
    let b := kk.getNamedBundle nm
    if truthy b then ⟨.ok (b, .fromName nm), [.namedBundle nm]⟩
    else ⟨.err (.unknownBundle nm), [.namedBundle nm]⟩
  else if source.hasKey "bundleID" then
    let bid := source.getKey "bundleID"
    let b := kk.getBundle bid
    if truthy b then ⟨.ok (b, .fromID bid), [.bundleById bid]⟩
    else ⟨.err (.unknownBundle bid), [.bundleById bid]⟩
  else ⟨.err .invalidSource, []⟩

/-- `allowedDynamicOptions` (vat-loader.js lines 192-201). -/
def allowedDynamicOptions : List String :=
  ["description", "meterID", "managerType", "enableSetup", "enablePipelining",
   "virtualObjectCacheSize", "useTranscript", "reapInterval"]

/-- `allowedStaticOptions` (vat-loader.js lines 203-213). -/
def allowedStaticOptions : List String :=
  ["description", "name", "managerType", "enableDisavow", "enableSetup",
   "enablePipelining", "virtualObjectCacheSize", "useTranscript", "reapInterval"]

/-- Modelled from the spec: `assertKnownOptions` (lib/assertOptions.js,
whose implementation is not among the provided sources; only its call site
is). Per §8.2, "any option key outside the kind-appropriate allow-list
causes creation to fail with InvalidOptionError": every key of the bag
must be in the allowed list, and the first unknown key raises. -/
def assertKnownOptions (options : JsObj) (allowed : List String) : VRes Unit :=
  match List.find? (fun kv => !(allowed.contains kv.1)) options with
  | some kv => .err (.invalidOption kv.1)
  | none => .ok ()

/-- The `managerOptions` object literal composed by `create`
(vat-loader.js lines 335-347), in field order, with
`...overrideVatManagerOptions` spread last. Destructuring defaults from
lines 313-322 (`enableSetup = false`, `enableDisavow = false`,
`enablePipelining = false`, `useTranscript = true`) are applied here;
`metered: !!meterID` is JS double negation, i.e. truthiness. -/
def composedManagerOptions (stuff : VatLoaderStuff) (vatID : String)
    (options : JsObj) (vatSourceBundle : JsValue) : JsObj :=
  ([("managerType", options.getKey "managerType"),
    ("bundle", vatSourceBundle),
    ("metered", .bool (truthy (options.getKey "meterID"))),
    ("enableDisavow", options.getD "enableDisavow" (.bool false)),
    ("enableSetup", options.getD "enableSetup" (.bool false)),
    ("enablePipelining", options.getD "enablePipelining" (.bool false)),
    ("sourcedConsole", stuff.makeSourcedConsole vatID),
    ("virtualObjectCacheSize", options.getKey "virtualObjectCacheSize"),
    ("useTranscript", options.getD "useTranscript" (.bool true)),
    ("name", options.getKey "name")] : JsObj)
  ++ stuff.overrideVatManagerOptions

/-- Outcome of a creation operation: the `managerOptions` handed to the
manager factory (the loader-observable part of the manager) or the raised
error, together with the keeper queries made. An `err` result means the
manager factory was never invoked and no vat state was registered. -/
structure CreateOutcome where
  result : VRes JsObj
  queries : List KeeperQuery
  deriving DecidableEq, Repr

/-- `create(vatID, source, translators, options, isDynamic)`
(vat-loader.js lines 285-359): resolve the source, check
`assert.typeof(vatSourceBundle, 'object')`, validate the options bag
against the kind-appropriate allow-list, then compose `managerOptions`
and invoke the manager factory. The slog bracketing (lines 326-333, 351,
357) is purely observational and not modelled. -/
def create (stuff : VatLoaderStuff) (vatID : String) (source : JsObj)
    (options : JsObj) (isDynamic : Bool) : CreateOutcome :=
  let r := resolveSource stuff.kernelKeeper source
  match r.result with
  | .err e => ⟨.err e, r.queries⟩
  | .ok (vatSourceBundle, _sourceDesc) =>
    if typeofJs vatSourceBundle = "object" then
      match assertKnownOptions options
          (if isDynamic then allowedDynamicOptions else allowedStaticOptions) with
      | .err e => ⟨.err e, r.queries⟩
      | .ok _ =>
        ⟨.ok (composedManagerOptions stuff vatID options vatSourceBundle), r.queries⟩
    else ⟨.err .notABundle, r.queries⟩

/-- `createVatDynamically` (vat-loader.js lines 138-147):
`assert(vatAdminRootKref, ...)` then delegate to `create` with
`isDynamic = true`. When the assertion fails nothing else runs: no keeper
query, no factory invocation, no registered vat. -/
def createVatDynamically (stuff : VatLoaderStuff) (vatID : String)
    (source : JsObj) (dynamicOptions : JsObj) : CreateOutcome :=
  if truthy stuff.vatAdminRootKref then
    create stuff vatID source dynamicOptions true
  else ⟨.err .precondition, []⟩

/-- Outcome of a recreation operation: the result re-raised to the caller
and the `panic(msg, err)` invocations made, each recorded as the vatID
named in the `` `unable to re-create vat ...` `` message paired with the
error passed along. -/
structure RecreateOutcome where
  result : VRes JsObj
  panics : List (String × VatError)
  deriving DecidableEq, Repr

/-- `recreateDynamicVat` (vat-loader.js lines 159-169): delegate to
`create` with `isDynamic = true`; on any failure, `panic` then re-throw
the same error. -/
def recreateDynamicVat (stuff : VatLoaderStuff) (vatID : String)
    (source : JsObj) (dynamicOptions : JsObj) : RecreateOutcome :=
  match (create stuff vatID source dynamicOptions true).result with
  | .ok m => ⟨.ok m, []⟩
  | .err e => ⟨.err e, [(vatID, e)]⟩

/-- `recreateStaticVat` (vat-loader.js lines 182-190): delegate to
`create` with `isDynamic = false`; on any failure, `panic` then re-throw
the same error. -/
def recreateStaticVat (stuff : VatLoaderStuff) (vatID : String)
    (source : JsObj) (staticOptions : JsObj) : RecreateOutcome :=
  match (create stuff vatID source staticOptions false).result with
  | .ok m => ⟨.ok m, []⟩
  | .err e => ⟨.err e, [(vatID, e)]⟩

/-- `loadTestVat` (vat-loader.js lines 361-377): no source resolution and
no option validation; the `managerOptions` literal spreads
`...creationOptions` first, then sets `setup`, `enableSetup: true`,
`managerType: 'local'`, `useTranscript: true`, then spreads
`...overrideVatManagerOptions`. The body raises nothing (its only await
is the injected factory, modelled as total), so the result is always
`ok`. -/
def loadTestVat (stuff : VatLoaderStuff) (_vatID : String) (setup : JsValue)
    (creationOptions : JsObj) : VRes JsObj :=
  .ok (creationOptions
    ++ ([("setup", setup),
         ("enableSetup", .bool true),
         ("managerType", .str "local"),
         ("useTranscript", .bool true)] : JsObj)
    ++ stuff.overrideVatManagerOptions)

/-- Modelled from the spec: the kernel's per-crank behavior. The kernel
itself (`buildKernel`, `kernel.step`, the transcript engine) is not among
the provided sources — only its replay test (`transcript-light load`) and
the `buildVatController` wrapper are — so per §1/§4.1/§4.4 a crank handler
is a deterministic function from the popped delivery and the current vat
state to the new vat state and the deliveries it enqueues. -/
structure KernelSpec (δ σ : Type) where
  handle : δ → σ → σ × List δ

/-- Modelled from the spec: the kernel's live state — run-queue contents,
vat-observable state, and the append-only transcript (§6 persisted state
layout). -/
structure KernelState (δ σ : Type) where
  runQueue : List δ
  vats : σ
  transcript : List δ
  deriving DecidableEq

/-- Modelled from the spec: the full persisted image captured by
`getAllState(storage)` — per §6 the run-queue, vat state and transcript
"all must survive a restart such that replaying from them reconstructs
identical kernel state". -/
structure PersistedState (δ σ : Type) where
  runQueue : List δ
  vats : σ
  transcript : List δ
  deriving DecidableEq

/-- Modelled from the spec: capturing the full persisted state of a
kernel (`getAllState`). -/
def getAllState {δ σ : Type} (s : KernelState δ σ) : PersistedState δ σ :=
  ⟨s.runQueue, s.vats, s.transcript⟩

/-- Modelled from the spec: `buildVatController` with `hostStorage`
holding a previously captured persisted image (`setAllState` then
`kernel.start`, which "replays the transcripts from a previous run"),
reconstructing a kernel whose live state is exactly the persisted one. -/
def buildFromState {δ σ : Type} (p : PersistedState δ σ) : KernelState δ σ :=
  ⟨p.runQueue, p.vats, p.transcript⟩

/-- Modelled from the spec: `controller.step()` — pop the head delivery
from the run-queue (FIFO, §4.1), hand it to the deterministic crank
handler, append its new deliveries to the tail of the run-queue and the
processed delivery to the transcript; a `step` on an empty queue does
nothing. -/
def kstep {δ σ : Type} (K : KernelSpec δ σ) (s : KernelState δ σ) : KernelState δ σ :=
  match s.runQueue with
  | [] => s
  | d :: rest =>
    let out := K.handle d s.vats
    ⟨rest ++ out.2, out.1, s.transcript ++ [d]⟩

/-! ### Association-list (spread-semantics) lemmas -/

theorem bool_eq_false_of_not_true {b : Bool} (h : ¬ b = true) : b = false := by
  cases b
  · rfl
  · exact absurd rfl h

theorem JsObj.foldl_getKey_no_key (o : JsObj) (k : String) (acc : JsValue)
    (h : JsObj.hasKey o k = false) :
    o.foldl (fun a kv => if kv.1 == k then kv.2 else a) acc = acc := by
  induction o generalizing acc with
  | nil => rfl
  | cons hd tl ih =>
    simp only [JsObj.hasKey, List.any_cons, Bool.or_eq_false_iff] at h
    simp only [List.foldl_cons, h.1, Bool.false_eq_true, if_false]
    exact ih acc h.2

theorem JsObj.foldl_getKey_key_present (o : JsObj) (k : String)
    (h : JsObj.hasKey o k = true) (acc acc' : JsValue) :
    o.foldl (fun a kv => if kv.1 == k then kv.2 else a) acc
      = o.foldl (fun a kv => if kv.1 == k then kv.2 else a) acc' := by
  induction o generalizing acc acc' with
  | nil => simp [JsObj.hasKey] at h
  | cons hd tl ih =>
    by_cases hhd : (hd.1 == k) = true
    · simp only [List.foldl_cons, hhd, if_true]
    · have htl : JsObj.hasKey tl k = true := by
        simp only [JsObj.hasKey, List.any_cons, Bool.or_eq_true] at h
        rcases h with h | h
        · exact absurd h hhd
        · exact h
      simp only [List.foldl_cons]
      rw [if_neg hhd, if_neg hhd]
      exact ih htl acc acc'

theorem JsObj.hasKey_append (a b : JsObj) (k : String) :
    JsObj.hasKey (a ++ b) k = (JsObj.hasKey a k || JsObj.hasKey b k) := by
  simp [JsObj.hasKey, List.any_append]

theorem JsObj.getKey_append (a b : JsObj) (k : String) :
    JsObj.getKey (a ++ b) k
      = if JsObj.hasKey b k then JsObj.getKey b k else JsObj.getKey a k := by
  by_cases hb : JsObj.hasKey b k = true
  · rw [if_pos hb]
    unfold JsObj.getKey
    rw [List.foldl_append]
    exact JsObj.foldl_getKey_key_present b k hb _ _
  · rw [if_neg hb]
    unfold JsObj.getKey
    rw [List.foldl_append]
    exact JsObj.foldl_getKey_no_key b k _ (bool_eq_false_of_not_true hb)

/-! ### Validation helper lemmas -/

theorem assertKnownOptions_err_of_bad (options : JsObj) (allowed : List String)
    (k : String) (hk : JsObj.hasKey options k = true)
    (hb : allowed.contains k = false) :
    ∃ kk, assertKnownOptions options allowed = .err (.invalidOption kk)
      ∧ allowed.contains kk = false := by
  have hex : ∃ kv, kv ∈ options ∧ (!(allowed.contains kv.1)) = true := by
    simp only [JsObj.hasKey, List.any_eq_true] at hk
    obtain ⟨kv, hmem, hkv⟩ := hk
    exact ⟨kv, hmem, by rw [eq_of_beq hkv, hb]; rfl⟩
  have hsome : (List.find? (fun kv => !(allowed.contains kv.1)) options).isSome := by
    rw [List.find?_isSome]
    obtain ⟨kv, hmem, hkv⟩ := hex
    exact ⟨kv, hmem, hkv⟩
  obtain ⟨kv, hfind⟩ := Option.isSome_iff_exists.mp hsome
  have hp := List.find?_some hfind
  refine ⟨kv.1, ?_, by simpa using hp⟩
  unfold assertKnownOptions
  rw [hfind]

theorem assertKnownOptions_cases (options : JsObj) (allowed : List String) :
    assertKnownOptions options allowed = .ok ()
      ∨ ∃ k, assertKnownOptions options allowed = .err (.invalidOption k) := by
  unfold assertKnownOptions
  cases List.find? (fun kv => !(allowed.contains kv.1)) options with
  | none => exact Or.inl rfl
  | some kv => exact Or.inr ⟨kv.1, rfl⟩

theorem resolveSource_err_invalidSource_iff (kk : KernelKeeper) (source : JsObj) :
    (resolveSource kk source).result = .err .invalidSource
      ↔ (JsObj.hasKey source "bundle" = false
          ∧ JsObj.hasKey source "bundleName" = false
          ∧ JsObj.hasKey source "bundleID" = false) := by
  unfold resolveSource
  by_cases h1 : JsObj.hasKey source "bundle" = true <;>
    by_cases h2 : JsObj.hasKey source "bundleName" = true <;>
      by_cases h3 : JsObj.hasKey source "bundleID" = true <;>
        simp [h1, h2, h3, bool_eq_false_of_not_true] <;>
          split <;> simp

/-! ### Concrete fixtures for witnesses and counterexamples -/

/-- A concrete keeper knowing one named bundle and one bundle ID. -/
def kkC : KernelKeeper where
  getNamedBundle := fun v => if v == .str "known" then .obj 7 else .undefined
  getBundle := fun v => if v == .str "b1-known" then .obj 8 else .undefined

/-- Loader capabilities with the vat-admin capability established and no
admin-level overrides. -/
def stuffC : VatLoaderStuff where
  overrideVatManagerOptions := []
  kernelKeeper := kkC
  vatAdminRootKref := .str "ko20"
  makeSourcedConsole := fun _ => .obj 99

/-- Loader capabilities before `initializeKernel` set `vatAdminRootKref`. -/
def stuffNoAdmin : VatLoaderStuff where
  overrideVatManagerOptions := []
  kernelKeeper := kkC
  vatAdminRootKref := .undefined
  makeSourcedConsole := fun _ => .obj 99

/-- Loader capabilities with an admin-level override forcing
`enablePipelining`. -/
def stuffOverride : VatLoaderStuff where
  overrideVatManagerOptions := [("enablePipelining", .bool true)]
  kernelKeeper := kkC
  vatAdminRootKref := .str "ko20"
  makeSourcedConsole := fun _ => .obj 99

/-! ### Claim theorems -/

/-- C1. Replay equivalence: capture the full persisted state of a kernel
after `k` cranks, reconstruct a second kernel instance from it, and step
the second instance `j` more cranks: its persisted state (run-queue, vat
state, transcript) is equal to the first instance's at the same point,
for every intermediate checkpoint `j`. -/
theorem C1_replay_equivalence (δ σ : Type) (K : KernelSpec δ σ)
    (s0 : KernelState δ σ) (k j : Nat) :
    getAllState ((kstep K)^[j] (buildFromState (getAllState ((kstep K)^[k] s0))))
      = getAllState ((kstep K)^[k + j] s0) := by
  have hb : ∀ s : KernelState δ σ, buildFromState (getAllState s) = s := fun s => rfl
  rw [hb, add_comm, Function.iterate_add_apply]

/-- C4. `createVatDynamically` with the vat-admin capability absent fails
with the precondition error, with no keeper query and no manager-factory
invocation (no kernel state touched); with the capability present it is
exactly the shared `create` path with `isDynamic = true`. -/
theorem C4_admin_precondition (stuff : VatLoaderStuff) (vatID : String)
    (source dynamicOptions : JsObj) :
    (truthy stuff.vatAdminRootKref = false →
      createVatDynamically stuff vatID source dynamicOptions
        = ⟨.err .precondition, []⟩)
    ∧ (truthy stuff.vatAdminRootKref = true →
      createVatDynamically stuff vatID source dynamicOptions
        = create stuff vatID source dynamicOptions true) := by
  constructor <;> intro h <;> simp [createVatDynamically, h]

theorem C4_admin_precondition_witness :
    (truthy stuffNoAdmin.vatAdminRootKref = false
      ∧ createVatDynamically stuffNoAdmin "v9" [("bundle", .obj 0)] []
          = ⟨.err .precondition, []⟩)
    ∧ (truthy stuffC.vatAdminRootKref = true
      ∧ createVatDynamically stuffC "v9" [("bundle", .obj 0)] []
          = create stuffC "v9" [("bundle", .obj 0)] [] true) :=
  ⟨⟨by decide,
    (C4_admin_precondition stuffNoAdmin "v9" [("bundle", .obj 0)] []).1 (by decide)⟩,
   ⟨by decide,
    (C4_admin_precondition stuffC "v9" [("bundle", .obj 0)] []).2 (by decide)⟩⟩

/-- C5. `recreateDynamicVat` and `recreateStaticVat`: whenever the
underlying `create` fails with an error, the panic policy is invoked
(recording the vat and the failure) and the very same error is re-raised
to the caller; whenever `create` succeeds no panic occurs and the manager
is returned — the failure is never swallowed. -/
theorem C5_recreate_panics (stuff : VatLoaderStuff) (vatID : String)
    (source options : JsObj) (e : VatError) (m : JsObj) :
    ((create stuff vatID source options true).result = .err e →
      recreateDynamicVat stuff vatID source options = ⟨.err e, [(vatID, e)]⟩)
    ∧ ((create stuff vatID source options true).result = .ok m →
      recreateDynamicVat stuff vatID source options = ⟨.ok m, []⟩)
    ∧ ((create stuff vatID source options false).result = .err e →
      recreateStaticVat stuff vatID source options = ⟨.err e, [(vatID, e)]⟩)
    ∧ ((create stuff vatID source options false).result = .ok m →
      recreateStaticVat stuff vatID source options = ⟨.ok m, []⟩) := by
  refine ⟨?_, ?_, ?_, ?_⟩ <;> intro h <;>
    simp [recreateDynamicVat, recreateStaticVat, h]

theorem C5_recreate_panics_witness :
    ((create stuffC "v2" [] [] true).result = .err .invalidSource
      ∧ recreateDynamicVat stuffC "v2" [] []
          = ⟨.err .invalidSource, [("v2", .invalidSource)]⟩)
    ∧ ((create stuffC "v2" [] [] false).result = .err .invalidSource
      ∧ recreateStaticVat stuffC "v2" [] []
          = ⟨.err .invalidSource, [("v2", .invalidSource)]⟩)
    ∧ ((create stuffC "v3" [("bundle", .obj 0)] [] false).result
          = .ok (composedManagerOptions stuffC "v3" [] (.obj 0))
      ∧ recreateStaticVat stuffC "v3" [("bundle", .obj 0)] []
          = ⟨.ok (composedManagerOptions stuffC "v3" [] (.obj 0)), []⟩) :=
  ⟨⟨by decide,
    (C5_recreate_panics stuffC "v2" [] [] .invalidSource []).1 (by decide)⟩,
   ⟨by decide,
    (C5_recreate_panics stuffC "v2" [] [] .invalidSource []).2.2.1 (by decide)⟩,
   ⟨by decide,
    (C5_recreate_panics stuffC "v3" [("bundle", .obj 0)] [] .invalidSource
      (composedManagerOptions stuffC "v3" [] (.obj 0))).2.2.2 (by decide)⟩⟩

/-- C2 counterexample. A source descriptor with TWO of the forms present
(`bundle` and `bundleName`) does not fail with the invalid-source error:
creation proceeds and the manager factory is invoked, so the claim that
"two or more forms present fails with InvalidSourceError before any
resources are allocated" is false on the code. -/
theorem C2_counterexample :
    JsObj.hasKey [("bundle", JsValue.obj 0), ("bundleName", JsValue.str "known")]
        "bundle" = true
    ∧ JsObj.hasKey [("bundle", JsValue.obj 0), ("bundleName", JsValue.str "known")]
        "bundleName" = true
    ∧ (create stuffC "v1"
        [("bundle", .obj 0), ("bundleName", .str "known")] [] true).result
      = .ok (composedManagerOptions stuffC "v1" [] (.obj 0)) := by
  decide

/-- C2 (amended). With ZERO of \x7bbundle, bundleName, bundleID\x7d present,
creation fails with the invalid-source error before any keeper query or
factory invocation; with at least one form present, creation never fails
with the invalid-source error (the highest-precedence form is used
instead). -/
theorem C2_source_forms (stuff : VatLoaderStuff) (vatID : String)
    (source options : JsObj) (isDynamic : Bool) :
    (JsObj.hasKey source "bundle" = false →
      JsObj.hasKey source "bundleName" = false →
      JsObj.hasKey source "bundleID" = false →
      create stuff vatID source options isDynamic = ⟨.err .invalidSource, []⟩)
    ∧ ((JsObj.hasKey source "bundle" || JsObj.hasKey source "bundleName"
          || JsObj.hasKey source "bundleID") = true →
      (create stuff vatID source options isDynamic).result
        ≠ .err .invalidSource) := by
  constructor
  · intro h1 h2 h3
    simp [create, resolveSource, h1, h2, h3]
  · intro hsome hcontra
    have hres : (resolveSource stuff.kernelKeeper source).result
        ≠ .err .invalidSource := by
      intro h
      obtain ⟨h1, h2, h3⟩ := (resolveSource_err_invalidSource_iff
        stuff.kernelKeeper source).mp h
      rw [h1, h2, h3] at hsome
      exact absurd hsome (by decide)
    revert hcontra
    unfold create
    cases hr : (resolveSource stuff.kernelKeeper source).result with
    | err e =>
      simp only [hr]
      intro hcontra
      apply hres
      rw [hr]
      injection hcontra with he
      rw [he]
    | ok p =>
      simp only [hr]
      intro hcontra
      rcases p with ⟨b, d⟩
      by_cases hobj : typeofJs b = "object"
      · rw [if_pos hobj] at hcontra
        rcases assertKnownOptions_cases options
            (if isDynamic then allowedDynamicOptions else allowedStaticOptions)
          with hok | ⟨kbad, herr⟩
        · rw [hok] at hcontra
          exact VRes.noConfusion hcontra
        · rw [herr] at hcontra
          exact VatError.noConfusion (VRes.err.inj hcontra)
      · rw [if_neg hobj] at hcontra
        exact VatError.noConfusion (VRes.err.inj hcontra)

theorem C2_source_forms_witness :
    (JsObj.hasKey ([] : JsObj) "bundle" = false
      ∧ create stuffC "v1" [] [] true = ⟨.err .invalidSource, []⟩)
    ∧ ((JsObj.hasKey [("bundleName", JsValue.str "known")] "bundle"
          || JsObj.hasKey [("bundleName", JsValue.str "known")] "bundleName"
          || JsObj.hasKey [("bundleName", JsValue.str "known")] "bundleID") = true
      ∧ (create stuffC "v1" [("bundleName", .str "known")] [] true).result
          ≠ .err .invalidSource) :=
  ⟨⟨by decide,
    (C2_source_forms stuffC "v1" [] [] true).1 (by decide) (by decide) (by decide)⟩,
   ⟨by decide,
    (C2_source_forms stuffC "v1" [("bundleName", .str "known")] [] true).2
      (by decide)⟩⟩

/-- C6. A source descriptor whose single form is a `bundleName` (resp.
`bundleID`) that the keeper does not resolve to a (truthy) bundle makes
creation fail with the unknown-bundle error carrying that name (resp.
ID); the result is an error, so no manager is constructed. -/
theorem C6_unknown_bundle (stuff : VatLoaderStuff) (vatID : String)
    (source options : JsObj) (isDynamic : Bool)
    (hb : JsObj.hasKey source "bundle" = false) :
    ((JsObj.hasKey source "bundleName" = true ∧
      truthy (stuff.kernelKeeper.getNamedBundle (JsObj.getKey source "bundleName"))
        = false) →
      (create stuff vatID source options isDynamic).result
        = .err (.unknownBundle (JsObj.getKey source "bundleName")))
    ∧ ((JsObj.hasKey source "bundleName" = false
        ∧ JsObj.hasKey source "bundleID" = true
        ∧ truthy (stuff.kernelKeeper.getBundle (JsObj.getKey source "bundleID"))
            = false) →
      (create stuff vatID source options isDynamic).result
        = .err (.unknownBundle (JsObj.getKey source "bundleID"))) := by
  constructor
  · rintro ⟨h1, h2⟩
    simp [create, resolveSource, hb, h1, h2]
  · rintro ⟨h1, h2, h3⟩
    simp [create, resolveSource, hb, h1, h2, h3]

theorem C6_unknown_bundle_witness :
    (JsObj.hasKey [("bundleName", JsValue.str "missing")] "bundle" = false
      ∧ (create stuffC "v4" [("bundleName", .str "missing")] [] true).result
          = .err (.unknownBundle (.str "missing")))
    ∧ (JsObj.hasKey [("bundleID", JsValue.str "b1-missing")] "bundle" = false
      ∧ (create stuffC "v4" [("bundleID", .str "b1-missing")] [] true).result
          = .err (.unknownBundle (.str "b1-missing"))) :=
  ⟨⟨by decide,
    by
      have h := (C6_unknown_bundle stuffC "v4" [("bundleName", .str "missing")] []
        true (by decide)).1 ⟨by decide, by decide⟩
      simpa using h⟩,
   ⟨by decide,
    by
      have h := (C6_unknown_bundle stuffC "v4" [("bundleID", .str "b1-missing")] []
        true (by decide)).2 ⟨by decide, by decide, by decide⟩
      simpa using h⟩⟩

/-- C9. Source-form precedence in the shared create path: when an inline
`bundle` is present, resolution uses it and the keeper is never queried,
whatever other forms are present; when `bundle` is absent and
`bundleName` is present, only `getNamedBundle` is consulted (a `bundleID`
alongside is ignored); and whenever at least one form is present, the
invalid-source error is never raised. -/
theorem C9_source_precedence (kk : KernelKeeper) (source : JsObj) :
    (JsObj.hasKey source "bundle" = true →
      resolveSource kk source
        = ⟨.ok (JsObj.getKey source "bundle", .fromBundle), []⟩)
    ∧ (JsObj.hasKey source "bundle" = false →
       JsObj.hasKey source "bundleName" = true →
      (resolveSource kk source).queries
          = [.namedBundle (JsObj.getKey source "bundleName")]
      ∧ (truthy (kk.getNamedBundle (JsObj.getKey source "bundleName")) = true →
        (resolveSource kk source).result
          = .ok (kk.getNamedBundle (JsObj.getKey source "bundleName"),
                 .fromName (JsObj.getKey source "bundleName"))))
    ∧ ((JsObj.hasKey source "bundle" || JsObj.hasKey source "bundleName"
          || JsObj.hasKey source "bundleID") = true →
      (resolveSource kk source).result ≠ .err .invalidSource) := by
  refine ⟨?_, ?_, ?_⟩
  · intro h
    simp [resolveSource, h]
  · intro h1 h2
    constructor
    · simp only [resolveSource, h1, Bool.false_eq_true, if_false, h2, if_true]
      split <;> rfl
    · intro h3
      simp [resolveSource, h1, h2, h3]
  · intro hsome h
    obtain ⟨h1, h2, h3⟩ := (resolveSource_err_invalidSource_iff kk source).mp h
    rw [h1, h2, h3] at hsome
    exact absurd hsome (by decide)

theorem C9_source_precedence_witness :
    (JsObj.hasKey
        [("bundle", JsValue.obj 0), ("bundleName", JsValue.str "known"),
         ("bundleID", JsValue.str "b1-known")] "bundle" = true
      ∧ resolveSource kkC
          [("bundle", .obj 0), ("bundleName", .str "known"),
           ("bundleID", .str "b1-known")]
        = ⟨.ok (.obj 0, .fromBundle), []⟩)
    ∧ ((resolveSource kkC
          [("bundleName", .str "known"), ("bundleID", .str "b1-known")]).queries
        = [.namedBundle (.str "known")]
      ∧ (resolveSource kkC
          [("bundleName", .str "known"), ("bundleID", .str "b1-known")]).result
        = .ok (.obj 7, .fromName (.str "known"))) :=
  ⟨⟨by decide,
    by
      have h := (C9_source_precedence kkC
        [("bundle", .obj 0), ("bundleName", .str "known"),
         ("bundleID", .str "b1-known")]).1 (by decide)
      simpa using h⟩,
   by
    have h := (C9_source_precedence kkC
      [("bundleName", .str "known"), ("bundleID", .str "b1-known")]).2.1
      (by decide) (by decide)
    constructor
    · simpa using h.1
    · have h2 := h.2 (by decide)
      simpa using h2⟩

/-- C3. For every creation call (dynamic or static) whose source resolves
to a bundle, an options bag containing any key outside the
kind-appropriate allow-list makes creation fail with the invalid-option
error (naming an unknown key); with such a bag no creation call succeeds
for any source whatsoever, so no vat is ever registered; in particular
`meterID` is outside the static allow-list, so supplying it for a static
vat fails validation. -/
theorem C3_option_validation (stuff : VatLoaderStuff) (vatID : String)
    (source options : JsObj) (isDynamic : Bool) (b : JsValue) (d : SourceDesc)
    (k : String)
    (hres : (resolveSource stuff.kernelKeeper source).result = .ok (b, d))
    (hobj : typeofJs b = "object")
    (hk : JsObj.hasKey options k = true)
    (hbad : (if isDynamic then allowedDynamicOptions
              else allowedStaticOptions).contains k = false) :
    (∃ kk, (create stuff vatID source options isDynamic).result
        = .err (.invalidOption kk)
      ∧ (if isDynamic then allowedDynamicOptions
          else allowedStaticOptions).contains kk = false)
    ∧ allowedStaticOptions.contains "meterID" = false
    ∧ (∀ (src2 : JsObj) (mo : JsObj),
        (create stuff vatID src2 options isDynamic).result ≠ .ok mo) := by
  obtain ⟨kk, hak, hc⟩ := assertKnownOptions_err_of_bad options _ k hk hbad
  refine ⟨⟨kk, ?_, hc⟩, by decide, ?_⟩
  · simp [create, hres, hobj, hak]
  · intro src2 mo hok
    unfold create at hok
    cases hr : (resolveSource stuff.kernelKeeper src2).result with
    | err e => simp [hr] at hok
    | ok p =>
      rcases p with ⟨b2, d2⟩
      simp only [hr] at hok
      by_cases hobj2 : typeofJs b2 = "object"
      · rw [if_pos hobj2] at hok
        rw [hak] at hok
        simp at hok
      · rw [if_neg hobj2] at hok
        simp at hok

theorem C3_option_validation_witness :
    (∃ kk, (create stuffC "v5" [("bundle", .obj 0)] [("meterID", .str "m1")]
        false).result = .err (.invalidOption kk)
      ∧ (if false then allowedDynamicOptions
          else allowedStaticOptions).contains kk = false)
    ∧ allowedStaticOptions.contains "meterID" = false := by
  have h := C3_option_validation stuffC "v5" [("bundle", .obj 0)]
    [("meterID", .str "m1")] false (.obj 0) .fromBundle "meterID"
    (by decide) (by decide) (by decide) (by decide)
  exact ⟨h.1, h.2.1⟩

/-- C7 counterexample. With `meterID` present but equal to the empty
string, `meterID != null` holds (JS loose comparison) yet the composed
manager options carry `metered: false`, because the code computes
`metered: !!meterID` (truthiness): the claimed `metered = meterID != null`
is false on the code. -/
theorem C7_counterexample :
    (create stuffC "v6" [("bundle", .obj 0)] [("meterID", .str "")] true).result
      = .ok (composedManagerOptions stuffC "v6" [("meterID", .str "")] (.obj 0))
    ∧ JsObj.getKey
        (composedManagerOptions stuffC "v6" [("meterID", .str "")] (.obj 0))
        "metered" = .bool false
    ∧ neqNull (JsObj.getKey [("meterID", JsValue.str "")] "meterID") = true := by
  decide

/-- C7 (amended). For every options bag accepted by the shared create
path, the composed manager options set `metered` to true exactly when the
`meterID` option is truthy (present and non-empty — JS `!!meterID`, not
`meterID != null`), and the admin-level overrides are applied last,
taking precedence over every caller-requested option value. -/
theorem C7_manager_options (stuff : VatLoaderStuff) (vatID : String)
    (source options : JsObj) (isDynamic : Bool) (b : JsValue) (d : SourceDesc)
    (hres : (resolveSource stuff.kernelKeeper source).result = .ok (b, d))
    (hobj : typeofJs b = "object")
    (hval : assertKnownOptions options
        (if isDynamic then allowedDynamicOptions
          else allowedStaticOptions) = .ok ()) :
    (create stuff vatID source options isDynamic).result
      = .ok (composedManagerOptions stuff vatID options b)
    ∧ (JsObj.hasKey stuff.overrideVatManagerOptions "metered" = false →
      JsObj.getKey (composedManagerOptions stuff vatID options b) "metered"
        = .bool (truthy (JsObj.getKey options "meterID")))
    ∧ (∀ kk, JsObj.hasKey stuff.overrideVatManagerOptions kk = true →
      JsObj.getKey (composedManagerOptions stuff vatID options b) kk
        = JsObj.getKey stuff.overrideVatManagerOptions kk) := by
  refine ⟨?_, ?_, ?_⟩
  · simp [create, hres, hobj, hval]
  · intro hno
    unfold composedManagerOptions
    rw [JsObj.getKey_append, if_neg (by simp [hno])]
    rfl
  · intro kk hkk
    unfold composedManagerOptions
    rw [JsObj.getKey_append, if_pos hkk]

theorem C7_manager_options_witness :
    (create stuffOverride "v10" [("bundle", .obj 0)]
        [("meterID", .str "m1"), ("enablePipelining", .bool false)] true).result
      = .ok (composedManagerOptions stuffOverride "v10"
          [("meterID", .str "m1"), ("enablePipelining", .bool false)] (.obj 0))
    ∧ JsObj.getKey (composedManagerOptions stuffOverride "v10"
        [("meterID", .str "m1"), ("enablePipelining", .bool false)] (.obj 0))
        "metered" = .bool true
    ∧ JsObj.getKey (composedManagerOptions stuffOverride "v10"
        [("meterID", .str "m1"), ("enablePipelining", .bool false)] (.obj 0))
        "enablePipelining" = .bool true := by
  obtain ⟨ha, hb, hc⟩ := C7_manager_options stuffOverride "v10"
    [("bundle", .obj 0)] [("meterID", .str "m1"), ("enablePipelining", .bool false)]
    true (.obj 0) .fromBundle (by decide) (by decide) (by decide)
  exact ⟨ha, (hb (by decide)).trans (by decide),
    (hc "enablePipelining" (by decide)).trans (by decide)⟩

/-- C8. `loadTestVat` hands the manager factory options with
`enableSetup = true`, `managerType = 'local'`, `useTranscript = true`
regardless of the caller-supplied creation options (which are spread
first and therefore overridden), and the caller-supplied setup function
is passed through directly, with no bundle resolution; stated for loaders
whose admin-level overrides leave those fields unset. -/
theorem C8_loadTestVat_forced (stuff : VatLoaderStuff) (vatID : String)
    (setup : JsValue) (creationOptions : JsObj)
    (h1 : JsObj.hasKey stuff.overrideVatManagerOptions "enableSetup" = false)
    (h2 : JsObj.hasKey stuff.overrideVatManagerOptions "managerType" = false)
    (h3 : JsObj.hasKey stuff.overrideVatManagerOptions "useTranscript" = false)
    (h4 : JsObj.hasKey stuff.overrideVatManagerOptions "setup" = false) :
    ∃ mo, loadTestVat stuff vatID setup creationOptions = .ok mo
      ∧ JsObj.getKey mo "enableSetup" = .bool true
      ∧ JsObj.getKey mo "managerType" = .str "local"
      ∧ JsObj.getKey mo "useTranscript" = .bool true
      ∧ JsObj.getKey mo "setup" = setup := by
  refine ⟨_, rfl, ?_, ?_, ?_, ?_⟩ <;>
    rw [JsObj.getKey_append, if_neg (by simp [h1, h2, h3, h4]),
      JsObj.getKey_append, if_pos (by rfl)] <;>
      rfl

theorem C8_loadTestVat_forced_witness :
    JsObj.hasKey stuffC.overrideVatManagerOptions "enableSetup" = false
    ∧ ∃ mo, loadTestVat stuffC "v8" (.obj 6)
        [("enableSetup", .bool false), ("managerType", .str "xsnap"),
         ("useTranscript", .bool false)] = .ok mo
      ∧ JsObj.getKey mo "enableSetup" = .bool true
      ∧ JsObj.getKey mo "managerType" = .str "local"
      ∧ JsObj.getKey mo "useTranscript" = .bool true
      ∧ JsObj.getKey mo "setup" = .obj 6 :=
  ⟨by decide,
   C8_loadTestVat_forced stuffC "v8" (.obj 6)
     [("enableSetup", .bool false), ("managerType", .str "xsnap"),
      ("useTranscript", .bool false)]
     (by decide) (by decide) (by decide) (by decide)⟩

/-- C10. `loadTestVat` performs no option-key validation: for every
creation-options bag — including bags with keys outside both allow-lists,
even `meterID` — it returns manager options (never an invalid-option
error), and every supplied key is passed through into the manager options
handed to the manager factory. -/
theorem C10_loadTestVat_no_validation (stuff : VatLoaderStuff) (vatID : String)
    (setup : JsValue) (creationOptions : JsObj) :
    ∃ mo, loadTestVat stuff vatID setup creationOptions = .ok mo
      ∧ ∀ k, JsObj.hasKey creationOptions k = true → JsObj.hasKey mo k = true := by
  refine ⟨_, rfl, ?_⟩
  intro k hk
  rw [JsObj.hasKey_append, JsObj.hasKey_append, hk]
  rfl

theorem C10_loadTestVat_no_validation_witness :
    JsObj.hasKey [("meterID", JsValue.str "m1"), ("bogus", JsValue.bool true)]
        "bogus" = true
    ∧ allowedDynamicOptions.contains "bogus" = false
    ∧ allowedStaticOptions.contains "bogus" = false
    ∧ ∃ mo, loadTestVat stuffC "v7" (.obj 5)
        [("meterID", .str "m1"), ("bogus", .bool true)] = .ok mo
      ∧ JsObj.hasKey mo "bogus" = true := by
  refine ⟨by decide, by decide, by decide, ?_⟩
  obtain ⟨mo, hmo, hall⟩ := C10_loadTestVat_no_validation stuffC "v7" (.obj 5)
    [("meterID", .str "m1"), ("bogus", .bool true)]
  exact ⟨mo, hmo, hall "bogus" (by decide)⟩

end SwingSet
